import Mathlib

/-!
# Verification of the diagram-regeneration pipeline

Shallow embedding of the two Python source files of `nim-typestates`'
documentation tooling:

* `scripts/generate_diagrams.py` — the direct entry point (`main`,
  `generate_diagram`, `extract_typestate_name`);
* `hooks/generate_diagrams.py` — the MkDocs hook (`on_pre_build`,
  `_needs_regeneration`).

Python strings are modelled as `List Char` with structurally recursive
versions of the string operations the sources use (`strip`, `startswith`,
`replace`, `rstrip`, `split`, `lower`), so that every definition evaluates
inside the kernel.  Filesystem state and the two external tools (the
`./bin/typestates` CLI and Graphviz `dot`) are modelled explicitly: files
as association lists, tool invocations as environment functions returning
exit codes and captured streams.
-/

set_option autoImplicit false

namespace Typestates

/-- Python strings, modelled as lists of characters. -/
abbrev Str := List Char

/-- Coerce a Lean string literal to the model type. -/
def str (s : String) : Str := s.data

/-- The whitespace characters stripped by Python's `str.strip()`
(restricted to ASCII, which is all the sources ever strip). -/
def isPySpace (c : Char) : Bool :=
  c = ' ' || c = '\t' || c = '\n' || c = '\r' || c = '\x0b' || c = '\x0c'

/-- Python `s.strip()`: remove leading and trailing whitespace. -/
def pyStrip (s : Str) : Str :=
  ((s.dropWhile isPySpace).reverse.dropWhile isPySpace).reverse

/-- Python `s.rstrip(":")`: remove every trailing colon. -/
def pyRstripColon (s : Str) : Str :=
  (s.reverse.dropWhile (fun c => c = ':')).reverse

/-- Python `s.lower()` on one ASCII character. -/
def pyLowerChar (c : Char) : Char :=
  if 65 ≤ c.toNat ∧ c.toNat ≤ 90 then Char.ofNat (c.toNat + 32) else c

/-- Python `s.lower()`. -/
def pyLower (s : Str) : Str := s.map pyLowerChar

/-- Fuel-driven worker for `pyReplace`; the fuel is an upper bound on the
number of characters still to be consumed, so the kernel can evaluate it. -/
def pyReplaceGo (pat rep : Str) : Nat → Str → Str
  | 0, s => s
  | _ + 1, [] => []
  | fuel + 1, c :: rest =>
    if pat ≠ [] ∧ pat.isPrefixOf (c :: rest) then
      rep ++ pyReplaceGo pat rep fuel (rest.drop (pat.length - 1))
    else
      c :: pyReplaceGo pat rep fuel rest

/-- Python `s.replace(pat, rep)`: replace every non-overlapping occurrence,
left to right.  (The sources only call it with non-empty patterns.) -/
def pyReplace (pat rep s : Str) : Str := pyReplaceGo pat rep s.length s

/-- Python `s.split("\n")`. -/
def splitLines : Str → List Str
  | [] => [[]]
  | c :: rest =>
    if c = '\n' then [] :: splitLines rest
    else
      match splitLines rest with
      | [] => [[c]]
      | l :: ls => (c :: l) :: ls

/-- The declaration keyword together with its mandatory following space:
`"typestate "`. -/
def kwSpace : Str := str "typestate "

/-- The suffix marker removed from filename stems: `"_typestate"`. -/
def suffixMarker : Str := str "_typestate"

/-- Does a raw line, after stripping, start with `"typestate "`?
This is exactly the per-line test of the loop in
`extract_typestate_name` (scripts/generate_diagrams.py, lines 31–33). -/
def isDeclLine (l : Str) : Bool := kwSpace.isPrefixOf (pyStrip l)

/-- The name the source derives from a matched declaration line
(scripts/generate_diagrams.py, lines 33–38): strip the line, delete every
occurrence of `"typestate "`, strip trailing colons, truncate at the first
`[` when one is present, and strip the remainder. -/
def declLineName (l : Str) : Str :=
  let line := pyStrip l
  let name := pyRstripColon (pyReplace kwSpace [] line)
  let name := if name.contains '[' then name.takeWhile (fun c => c ≠ '[') else name
  pyStrip name

/-- The filename fallback of `extract_typestate_name`
(scripts/generate_diagrams.py, line 40): the stem with every occurrence of
`"_typestate"` removed. -/
def stemFallback (stem : Str) : Str := pyReplace suffixMarker [] stem

/-- `extract_typestate_name` (scripts/generate_diagrams.py, lines 23–40):
scan the content line by line; the first line whose stripped form starts
with `"typestate "` yields the declaration-derived name; otherwise fall
back to the filename stem with the `"_typestate"` marker removed. -/
def extract_typestate_name (stem content : Str) : Str :=
  match (splitLines content).find? isDeclLine with
  | some l => declLineName l
  | none => stemFallback stem

/-! ## Filesystem and snippet model -/

/-- One discovered snippet file: its filename stem (the name without the
`.nim` extension), its text content, and its last-modified time. -/
structure Snippet where
  stem : Str
  content : Str
  mtime : Nat
deriving DecidableEq, Repr

/-- The output-file key the hook derives from a snippet
(hooks/generate_diagrams.py, line 24):
`snippet.stem.replace("_typestate", "").lower()`. -/
def stemKey (s : Snippet) : Str := pyLower (pyReplace suffixMarker [] s.stem)

/-- The modification time of a named file in a directory listing, or `none`
when no such file exists.  Models `path.exists()` / `path.stat().st_mtime`. -/
def lookupMtime (files : List (Str × Nat)) (f : Str) : Option Nat :=
  (files.find? (fun p => p.1 == f)).map (fun p => p.2)

/-- `_needs_regeneration` (hooks/generate_diagrams.py, lines 21–43).
`svgs` lists the `.svg` files of the output directory with their
modification times (what `output_dir.glob("*.svg")` sees); `cli` is
`some m` when `bin/typestates` exists with modification time `m`.
Returns `true` iff some snippet's stem-derived `.svg` is missing, or some
snippet is strictly newer than its stem-derived `.svg`, or the CLI binary
exists and is strictly newer than some existing `.svg`. -/
def needs_regeneration (snippet_files : List Snippet) (svgs : List (Str × Nat))
    (cli : Option Nat) : Bool :=
  (snippet_files.any (fun s =>
    match lookupMtime svgs (stemKey s ++ str ".svg") with
    | none => true
    | some m => decide (s.mtime > m)))
  || (match cli with
      | some cm => svgs.any (fun p => decide (cm > p.2))
      | none => false)

/-! ## The direct entry point (scripts/generate_diagrams.py) -/

/-- Outcome of one Graphviz `dot` invocation (scripts/generate_diagrams.py,
lines 69–83): success, a `CalledProcessError` with captured stderr, or a
`FileNotFoundError` because the executable is absent from the search path. -/
inductive DotOutcome where
  | ok
  | fail (stderr : Str)
  | notFound
deriving DecidableEq, Repr

/-- Behaviour of the two external tools, as the script observes it:
`cliRun stem content` is the `(returncode, stdout, stderr)` of
`./bin/typestates dot <file>` on that snippet, and `dotRun f` the outcome
of `dot -Tsvg <f> -o …`. -/
structure ScriptEnv where
  cliRun : Str → Str → Int × Str × Str
  dotRun : Str → DotOutcome

/-- One message printed by the script, one constructor per `print` site. -/
inductive Msg where
  | errNoSnippetsDir
  | errNoCli
  | warnNoFiles
  | processing (stem name : Str)
  | errCliFailed (stderr : Str)
  | createdDot (f : Str)
  | createdSvg (f : Str)
  | errGraphvizFailed (stderr : Str)
  | errDotNotFound
  | summary (success total : Nat)
deriving DecidableEq, Repr

/-- Create a file (an overwrite leaves the listing unchanged: the model
tracks existence only). -/
def writeFile (files : List Str) (f : Str) : List Str :=
  if files.contains f then files else files ++ [f]

/-- The filesystem state the direct script touches. -/
structure SysState where
  snippetsDirExists : Bool
  snippets : List Snippet
  outputDirExists : Bool
  outputFiles : List Str
  cliExists : Bool
deriving DecidableEq, Repr

/-- `generate_diagram` (scripts/generate_diagrams.py, lines 43–85): resolve
the name, run the CLI (non-zero exit: fail, write nothing), write the
`.dot` file, run Graphviz (error or missing executable: fail, the `.dot`
file stays), write the `.svg` file on success.  Returns the success flag,
the updated output-directory listing, and the printed messages. -/
def generate_diagram (env : ScriptEnv) (nim : Snippet) (files : List Str) :
    Bool × List Str × List Msg :=
  let name := extract_typestate_name nim.stem nim.content
  let dot_file := pyLower name ++ str ".dot"
  let svg_file := pyLower name ++ str ".svg"
  let m0 := [Msg.processing nim.stem name]
  let r := env.cliRun nim.stem nim.content
  if r.1 ≠ 0 then
    (false, files, m0 ++ [Msg.errCliFailed r.2.2])
  else
    let files1 := writeFile files dot_file
    let m1 := m0 ++ [Msg.createdDot dot_file]
    match env.dotRun dot_file with
    | DotOutcome.ok => (true, writeFile files1 svg_file, m1 ++ [Msg.createdSvg svg_file])
    | DotOutcome.fail e => (false, files1, m1 ++ [Msg.errGraphvizFailed e])
    | DotOutcome.notFound => (false, files1, m1 ++ [Msg.errDotNotFound])

/-- Lexicographic `≤` on the character lists, mirroring Python's sort of
the snippet paths. -/
def strLe : Str → Str → Bool
  | [], _ => true
  | _ :: _, [] => false
  | a :: as, b :: bs => if a = b then strLe as bs else Nat.blt a.toNat b.toNat

/-- Insert into a stem-sorted list of snippets, keeping it sorted. -/
def insertSorted (s : Snippet) : List Snippet → List Snippet
  | [] => [s]
  | t :: ts => if strLe s.stem t.stem then s :: t :: ts else t :: insertSorted s ts

/-- `sorted(snippet_files)` (scripts/generate_diagrams.py, line 112):
stable sort of the discovered snippets by path. -/
def sortSnippets : List Snippet → List Snippet
  | [] => []
  | s :: ss => insertSorted s (sortSnippets ss)

/-- The per-snippet loop of `main` (scripts/generate_diagrams.py,
lines 111–114): process each snippet in turn, accumulating the success
count, the directory listing, and the messages. -/
def runAll (env : ScriptEnv) : List Snippet → List Str → Nat × List Str × List Msg
  | [], files => (0, files, [])
  | s :: ss, files =>
    let r := generate_diagram env s files
    let rest := runAll env ss r.2.1
    ((if r.1 then 1 else 0) + rest.1, rest.2.1, r.2.2 ++ rest.2.2)

/-- `main` (scripts/generate_diagrams.py, lines 88–120): snippets-directory
check, output-directory creation, CLI check, empty-glob early success,
sorted per-snippet processing, summary line, and the 0/1 exit status.
Returns the exit status, the final filesystem state, and the messages. -/
def main (env : ScriptEnv) (st : SysState) : Int × SysState × List Msg :=
  if !st.snippetsDirExists then
    (1, st, [Msg.errNoSnippetsDir])
  else
    let st1 := { st with outputDirExists := true }
    if !st1.cliExists then
      (1, st1, [Msg.errNoCli])
    else if st1.snippets.isEmpty then
      (0, st1, [Msg.warnNoFiles])
    else
      let sorted := sortSnippets st1.snippets
      let r := runAll env sorted st1.outputFiles
      let total := sorted.length
      ((if r.1 < total then 1 else 0),
        { st1 with outputFiles := r.2.1 },
        r.2.2 ++ [Msg.summary r.1 total])

/-! ## The hook entry point (hooks/generate_diagrams.py) -/

/-- Python exceptions the hook's subprocess calls can raise. -/
inductive PyExn where
  | calledProcessError
  | fileNotFoundError
deriving DecidableEq, Repr

/-- Outcome of `subprocess.run(["dot", "-V"], check=True)`
(hooks/generate_diagrams.py, lines 86–91). -/
inductive DotVOutcome where
  | ok
  | callFailed
  | notFound
deriving DecidableEq, Repr

/-- The checked `dot -V` call: `check=True` turns a non-zero exit into a
`CalledProcessError`, a missing executable into a `FileNotFoundError`. -/
def runDotVChecked : DotVOutcome → Except PyExn Unit
  | DotVOutcome.ok => Except.ok ()
  | DotVOutcome.callFailed => Except.error PyExn.calledProcessError
  | DotVOutcome.notFound => Except.error PyExn.fileNotFoundError

/-- A subprocess the hook launches. -/
inductive HookEffect where
  | runDotV
  | runGenScript
deriving DecidableEq, Repr

/-- One logging call of the hook, by level. -/
inductive HookLog where
  | debug (s : Str)
  | info (s : Str)
  | warning (s : Str)
  | logError (s : Str)
deriving DecidableEq, Repr

/-- Python truthiness of `os.environ.get(var)`: `None` when unset, and an
empty string, are falsy; any non-empty value is truthy. -/
def envTruthy : Option Str → Bool
  | none => false
  | some s => !s.isEmpty

/-- Everything outside the hook's own code that it observes: the two
environment variables, the `dot -V` outcome, and the behaviour of the
generation subprocess `python3 scripts/generate_diagrams.py` — its exit
code, its captured stderr, and the output-directory listing it leaves
behind. -/
structure HookEnv where
  skipVar : Option Str
  forceVar : Option Str
  dotV : DotVOutcome
  genCode : Int
  genStderr : Str
  genSvgs : List (Str × Nat)

/-- The filesystem state the hook inspects. -/
structure HookFS where
  snippetsDirExists : Bool
  snippets : List Snippet
  svgs : List (Str × Nat)
  cli : Option Nat
deriving DecidableEq, Repr

/-- What a hook run produces: the subprocesses it launched, the log lines
it emitted, and the resulting `.svg` listing of the output directory. -/
structure HookRun where
  effects : List HookEffect
  logs : List HookLog
  svgs : List (Str × Nat)
deriving DecidableEq, Repr

/-- `on_pre_build` (hooks/generate_diagrams.py, lines 46–108): skip-switch
gate, snippets-directory and snippet-glob gates, CLI-existence gate,
force/staleness gate, guarded `dot -V` probe, then the generation
subprocess, whose non-zero exit is logged as an error and swallowed.
An `Except.error` result would model an exception escaping the hook. -/
def on_pre_build (env : HookEnv) (fs : HookFS) : Except PyExn HookRun :=
  if envTruthy env.skipVar then
    Except.ok ⟨[], [HookLog.debug (str "skip set")], fs.svgs⟩
  else if !fs.snippetsDirExists then
    Except.ok ⟨[], [HookLog.debug (str "no snippets directory")], fs.svgs⟩
  else if fs.snippets.isEmpty then
    Except.ok ⟨[], [HookLog.debug (str "no snippet files")], fs.svgs⟩
  else if fs.cli.isNone then
    Except.ok ⟨[], [HookLog.warning (str "typestates CLI not found")], fs.svgs⟩
  else if !envTruthy env.forceVar && !needs_regeneration fs.snippets fs.svgs fs.cli then
    Except.ok ⟨[], [HookLog.debug (str "diagrams up-to-date")], fs.svgs⟩
  else
    match runDotVChecked env.dotV with
    | Except.error _ =>
      Except.ok ⟨[HookEffect.runDotV],
        [HookLog.warning (str "graphviz dot not found")], fs.svgs⟩
    | Except.ok _ =>
      if env.genCode ≠ 0 then
        Except.ok ⟨[HookEffect.runDotV, HookEffect.runGenScript],
          [HookLog.info (str "generating diagrams"),
           HookLog.logError (str "diagram generation failed")],
          env.genSvgs⟩
      else
        Except.ok ⟨[HookEffect.runDotV, HookEffect.runGenScript],
          [HookLog.info (str "generating diagrams"),
           HookLog.info (str "diagrams generated successfully")],
          env.genSvgs⟩

/-! ## Derived notions used by the statements -/

/-- A snippet renders successfully under `env`: the CLI exits 0 on it and
Graphviz succeeds on its lowercased-name `.dot` file.  This is exactly the
condition under which `generate_diagram` returns `True`. -/
def renderOk (env : ScriptEnv) (s : Snippet) : Bool :=
  ((env.cliRun s.stem s.content).1 == 0)
    && (env.dotRun (pyLower (extract_typestate_name s.stem s.content) ++ str ".dot")
        == DotOutcome.ok)

/-- The spec claim's notion of a declaration line: after stripping, the
keyword, then a name, then a trailing colon.  (Used only to compare the
claim against the code, which does not require the colon.) -/
def claimColonDeclLine (l : Str) : Bool :=
  kwSpace.isPrefixOf (pyStrip l) && ((pyStrip l).getLast? == some ':')

/-! ## Concrete instances used by counterexamples and witnesses -/

/-- A tool environment in which every invocation succeeds. -/
def envOk : ScriptEnv :=
  ⟨fun _ _ => (0, str "digraph g", []), fun _ => DotOutcome.ok⟩

/-- A tool environment in which the Graphviz executable is absent from the
search path: every `dot` invocation raises `FileNotFoundError`. -/
def envNoDot : ScriptEnv :=
  ⟨fun _ _ => (0, str "digraph g", []), fun _ => DotOutcome.notFound⟩

/-- Snippets directory present and empty, CLI built. -/
def stEmpty : SysState := ⟨true, [], false, [], true⟩

/-- Snippets directory present with one snippet, CLI built. -/
def stOne : SysState :=
  ⟨true, [⟨str "a_typestate", str "typestate A:", 1⟩], false, [], true⟩

/-- Snippets directory present, CLI missing. -/
def stNoCli : SysState := ⟨true, [], false, [], false⟩

/-- First snippet of the partial-failure scenario. -/
def snipA : Snippet := ⟨str "alpha_typestate", str "typestate Alpha:\n  states: S", 1⟩

/-- Second snippet of the partial-failure scenario. -/
def snipB : Snippet := ⟨str "beta_typestate", str "typestate Beta:\n  states: S", 2⟩

/-- Third snippet of the partial-failure scenario. -/
def snipC : Snippet := ⟨str "gamma_typestate", str "typestate Gamma:\n  states: S", 3⟩

/-- The `.dot` file of the `k`-th scenario snippet. -/
def failDot (k : Fin 3) : Str :=
  if k.val = 0 then str "alpha.dot" else if k.val = 1 then str "beta.dot" else str "gamma.dot"

/-- The `.svg` file of the `k`-th scenario snippet. -/
def svgOf (k : Fin 3) : Str :=
  if k.val = 0 then str "alpha.svg" else if k.val = 1 then str "beta.svg" else str "gamma.svg"

/-- The stem of the `k`-th scenario snippet. -/
def stemOf (k : Fin 3) : Str :=
  if k.val = 0 then str "alpha_typestate"
  else if k.val = 1 then str "beta_typestate" else str "gamma_typestate"

/-- The declared name of the `k`-th scenario snippet. -/
def nameOf (k : Fin 3) : Str :=
  if k.val = 0 then str "Alpha" else if k.val = 1 then str "Beta" else str "Gamma"

/-- Tool environment of the partial-failure scenario: the CLI always
succeeds; the layout tool fails exactly on the `k`-th snippet's `.dot`. -/
def failEnv (k : Fin 3) : ScriptEnv :=
  ⟨fun _ _ => (0, str "digraph g", []),
   fun f => if f = failDot k then DotOutcome.fail (str "boom") else DotOutcome.ok⟩

/-- Filesystem of the partial-failure scenario: directory present, three
snippets, CLI built, empty output directory. -/
def st7 : SysState := ⟨true, [snipA, snipB, snipC], false, [], true⟩

/-- Hook environment with the skip switch set. -/
def envSkip : HookEnv := ⟨some (str "1"), none, DotVOutcome.ok, 0, [], []⟩

/-- Hook environment with the force switch set and a generation subprocess
that exits with code 1. -/
def envGenFail : HookEnv := ⟨none, some (str "1"), DotVOutcome.ok, 1, str "boom", []⟩

/-- A hook filesystem with one snippet and the CLI present. -/
def fsOne : HookFS := ⟨true, [⟨str "a_typestate", str "typestate A:", 1⟩], [], some 0⟩

/-! ## Helper lemmas -/

/-- The success flag of `generate_diagram` does not depend on the files
already present: it is exactly `renderOk`. -/
theorem generate_diagram_fst (env : ScriptEnv) (s : Snippet) (files : List Str) :
    (generate_diagram env s files).1 = renderOk env s := by
  unfold generate_diagram renderOk
  by_cases hc : (env.cliRun s.stem s.content).1 = 0
  · simp only [hc, ne_eq, not_true_eq_false, if_false, beq_self_eq_true, Bool.true_and]
    cases hd : env.dotRun (pyLower (extract_typestate_name s.stem s.content) ++ str ".dot") <;>
      simp [hd]
  · simp [hc]

/-- The success count of the batch loop is the number of snippets that
render successfully. -/
theorem runAll_count (env : ScriptEnv) (l : List Snippet) :
    ∀ files, (runAll env l files).1 = l.countP (renderOk env) := by
  induction l with
  | nil => intro files; simp [runAll]
  | cons s ss ih =>
    intro files
    simp only [runAll, List.countP_cons, generate_diagram_fst, ih]
    ring

/-- Inserting into the sorted list adds the inserted snippet's count. -/
theorem countP_insertSorted (p : Snippet → Bool) (s : Snippet) (l : List Snippet) :
    (insertSorted s l).countP p = (if p s then 1 else 0) + l.countP p := by
  induction l with
  | nil => simp [insertSorted, List.countP_cons]
  | cons t ts ih =>
    unfold insertSorted
    split
    · simp only [List.countP_cons]
      ring
    · simp only [List.countP_cons, ih]
      ring

/-- Sorting the snippets does not change how many satisfy a predicate. -/
theorem countP_sortSnippets (p : Snippet → Bool) (l : List Snippet) :
    (sortSnippets l).countP p = l.countP p := by
  induction l with
  | nil => rfl
  | cons s ss ih =>
    simp only [sortSnippets, countP_insertSorted, ih, List.countP_cons]
    ring

/-- Insertion grows the length by one. -/
theorem length_insertSorted (s : Snippet) (l : List Snippet) :
    (insertSorted s l).length = l.length + 1 := by
  induction l with
  | nil => rfl
  | cons t ts ih =>
    unfold insertSorted
    split <;> simp [ih]

/-- Sorting the snippets does not change their number. -/
theorem length_sortSnippets (l : List Snippet) :
    (sortSnippets l).length = l.length := by
  induction l with
  | nil => rfl
  | cons s ss ih => simp [sortSnippets, length_insertSorted, ih]

/-- A successful `find?` returns the first element satisfying the
predicate: some position holds it and every earlier position fails it. -/
theorem find?_first {α : Type} (p : α → Bool) :
    ∀ (l : List α) (a : α), l.find? p = some a →
      ∃ i : Nat, ∃ hi : i < l.length, l.get ⟨i, hi⟩ = a ∧ p a = true ∧
        ∀ (j : Nat) (hj : j < l.length), j < i → p (l.get ⟨j, hj⟩) = false
  | [], a => by intro h; simp [List.find?] at h
  | x :: xs, a => by
    intro h
    cases hx : p x with
    | true =>
      rw [List.find?_cons_of_pos _ hx] at h
      cases h
      exact ⟨0, Nat.succ_pos _, rfl, hx, fun j hj hj0 => absurd hj0 (Nat.not_lt_zero j)⟩
    | false =>
      rw [List.find?_cons_of_neg _ (by simp [hx])] at h
      obtain ⟨i, hi, hget, hpa, hfirst⟩ := find?_first p xs a h
      refine ⟨i + 1, Nat.succ_lt_succ hi, hget, hpa, ?_⟩
      intro j hj hji
      cases j with
      | zero => exact hx
      | succ k => exact hfirst k (Nat.lt_of_succ_lt_succ hj) (Nat.lt_of_succ_lt_succ hji)

/-! ## Claim C1 -/

/-- C1, counterexample.  The claim says the staleness oracle inspects the
image named after the snippet's ArtifactName — the declared typestate name
when a declaration line is present.  Take a snippet whose file stem is
`widget_typestate` but whose text declares `typestate Payment:`: its
ArtifactName is `Payment`, yet with a fresh `payment.svg` on disk (mtime
10 ≥ snippet mtime 5, no CLI binary) the oracle still demands
regeneration, while a fresh `widget.svg` — named after the filename stem —
satisfies it.  The oracle therefore does not inspect the
declared-name artifact. -/
theorem C1_oracle_ignores_declared_name_cx :
    extract_typestate_name (str "widget_typestate") (str "typestate Payment:") = str "Payment"
    ∧ needs_regeneration [⟨str "widget_typestate", str "typestate Payment:", 5⟩]
        [(str "payment.svg", 10)] none = true
    ∧ needs_regeneration [⟨str "widget_typestate", str "typestate Payment:", 5⟩]
        [(str "widget.svg", 10)] none = false := by decide

/-- C1, amended: in the hook's staleness check the expected image-artifact
path for a snippet is derived from the snippet's filename stem — the stem
with the `_typestate` marker removed, lowercased, with the `.svg`
extension — and never from the declared typestate name: with no CLI
binary, the single-snippet verdict is "up to date" precisely when the
stem-named image exists at least as new as the snippet, and the verdict is
unchanged by any rewrite of the snippet's text. -/
theorem C1_oracle_checks_stem_derived_path (s : Snippet) (svgs : List (Str × Nat)) :
    (needs_regeneration [s] svgs none = false ↔
      ∃ m, lookupMtime svgs (stemKey s ++ str ".svg") = some m ∧ s.mtime ≤ m)
    ∧ (∀ c : Str, needs_regeneration [{ s with content := c }] svgs none
        = needs_regeneration [s] svgs none) := by
  constructor
  · unfold needs_regeneration
    cases h : lookupMtime svgs (stemKey s ++ str ".svg") with
    | none => simp [h]
    | some m => simp [h, Nat.not_lt]
  · intro c
    rfl

/-! ## Claim C2 -/

/-- C2, counterexample.  The claim says a missing layout tool yields exit
status 1 even when zero snippets are discovered.  With the snippets
directory present, the CLI built, zero snippets, and a tool environment
where every `dot` invocation raises `FileNotFoundError`, `main` exits 0:
the direct entry point never probes the layout tool outside the
per-snippet pipeline. -/
theorem C2_missing_layout_tool_zero_snippets_cx :
    (main envNoDot stEmpty).1 = 0
    ∧ envNoDot.dotRun (str "x.dot") = DotOutcome.notFound := by decide

/-- C2, amended: the direct entry point's exit status is always 0 or 1,
and it is 0 exactly when the snippets directory exists, the
rendering-compiler CLI exists, and every discovered snippet renders
successfully (vacuously so when zero snippets are discovered); it is 1
when the directory or the CLI is missing or at least one snippet fails.
The layout tool is only consulted per snippet, so its absence surfaces as
per-snippet failures and leaves a zero-snippet run at exit 0. -/
theorem C2_exit_status_characterization (env : ScriptEnv) (st : SysState) :
    ((main env st).1 = 0 ∨ (main env st).1 = 1)
    ∧ ((main env st).1 = 0 ↔
        st.snippetsDirExists = true ∧ st.cliExists = true
          ∧ st.snippets.all (renderOk env) = true) := by
  unfold main
  by_cases h1 : st.snippetsDirExists = true
  · by_cases h2 : st.cliExists = true
    · by_cases h3 : st.snippets.isEmpty = true
      · have h3' : st.snippets = [] := List.isEmpty_iff.mp h3
        simp [h1, h2, h3, h3']
      · have hne : (st.snippets.isEmpty : Bool) = false := by
          cases hh : st.snippets.isEmpty
          · rfl
          · exact absurd hh h3
        simp only [h1, h2, hne, Bool.not_true, Bool.not_false, Bool.false_eq_true,
          if_false, if_true, runAll_count, countP_sortSnippets, length_sortSnippets]
        by_cases hlt : st.snippets.countP (renderOk env) < st.snippets.length
        · simp only [hlt, if_true]
          constructor
          · right; trivial
          · constructor
            · intro h; exact absurd h (by decide)
            · rintro ⟨-, -, hall⟩
              have hcl : st.snippets.countP (renderOk env) = st.snippets.length := by
                rw [List.countP_eq_length]
                intro a ha
                exact List.all_eq_true.mp hall a ha
              omega
        · simp only [hlt, if_false]
          constructor
          · left; trivial
          · constructor
            · intro _
              refine ⟨trivial, trivial, ?_⟩
              have hle : st.snippets.countP (renderOk env) ≤ st.snippets.length :=
                List.countP_le_length _
              have heq : st.snippets.countP (renderOk env) = st.snippets.length := by omega
              rw [List.all_eq_true]
              intro a ha
              exact List.countP_eq_length.mp heq a ha
            · intro _; trivial
    · have h2' : st.cliExists = false := by
        cases hh : st.cliExists
        · rfl
        · exact absurd hh h2
      simp [h1, h2']
  · have h1' : st.snippetsDirExists = false := by
      cases hh : st.snippetsDirExists
      · rfl
      · exact absurd hh h1
    simp [h1']

/-! ## Claim C3 -/

/-- C3, counterexample.  The claim says every direct run emits a summary
count and that an empty snippets directory reports "0/0".  With the
directory present, the CLI built and zero snippets, `main` exits 0 but
prints only the no-files warning: no summary message of any count is
emitted. -/
theorem C3_empty_dir_no_summary_cx :
    (main envOk stEmpty).1 = 0
    ∧ ((main envOk stEmpty).2.2.all
        (fun m => match m with | Msg.summary _ _ => false | _ => true)) = true := by decide

/-- C3, amended: the summary count (successes out of attempts) is the last
message of every direct run that passes the directory and CLI checks and
discovers at least one snippet; a run over an empty snippets directory
exits 0 but reports only the no-files warning, not a "0/0" summary. -/
theorem C3_summary_on_nonempty_runs (env : ScriptEnv) (st : SysState) :
    (st.snippetsDirExists = true → st.cliExists = true → st.snippets ≠ [] →
      (main env st).2.2.getLast? =
        some (Msg.summary (st.snippets.countP (renderOk env)) st.snippets.length))
    ∧ (st.snippetsDirExists = true → st.cliExists = true → st.snippets = [] →
      (main env st).1 = 0 ∧ (main env st).2.2 = [Msg.warnNoFiles])
    ∧ (¬(st.snippetsDirExists = true ∧ st.cliExists = true ∧ st.snippets ≠ []) →
      ∀ c n : Nat, Msg.summary c n ∉ (main env st).2.2) := by
  refine ⟨?_, ?_, ?_⟩
  · intro h1 h2 h3
    have hne : (st.snippets.isEmpty : Bool) = false := by
      cases hh : st.snippets
      · exact absurd hh h3
      · rfl
    simp only [main, h1, h2, hne, Bool.not_true, Bool.not_false, Bool.false_eq_true,
      if_false, if_true, runAll_count, countP_sortSnippets, length_sortSnippets]
    rw [List.getLast?_concat]
  · intro h1 h2 h3
    have he : (st.snippets.isEmpty : Bool) = true := by simp [h3]
    simp [main, h1, h2, he]
  · intro h c n
    by_cases h1 : st.snippetsDirExists = true
    · by_cases h2 : st.cliExists = true
      · have h3 : st.snippets = [] := by
          by_contra hne
          exact h ⟨h1, h2, hne⟩
        have he : (st.snippets.isEmpty : Bool) = true := by simp [h3]
        simp [main, h1, h2, he]
      · have h2' : st.cliExists = false := by
          cases hh : st.cliExists
          · rfl
          · exact absurd hh h2
        simp [main, h1, h2']
    · have h1' : st.snippetsDirExists = false := by
        cases hh : st.snippetsDirExists
        · rfl
        · exact absurd hh h1
      simp [main, h1']

/-- C3, witness: a one-snippet all-success run ends with its summary, the
empty-directory run exits 0 with only the warning, and a run failing the
CLI check emits no summary message. -/
theorem C3_summary_on_nonempty_runs_witness :
    (main envOk stOne).2.2.getLast? =
      some (Msg.summary (stOne.snippets.countP (renderOk envOk)) stOne.snippets.length)
    ∧ ((main envOk stEmpty).1 = 0 ∧ (main envOk stEmpty).2.2 = [Msg.warnNoFiles])
    ∧ Msg.summary 0 0 ∉ (main envOk stNoCli).2.2 :=
  ⟨(C3_summary_on_nonempty_runs envOk stOne).1 rfl rfl (by decide),
   (C3_summary_on_nonempty_runs envOk stEmpty).2.1 rfl rfl rfl,
   (C3_summary_on_nonempty_runs envOk stNoCli).2.2 (by decide) 0 0⟩

/-! ## Claim C4 -/

/-- C4, counterexample.  The claim makes the declaration-derived result
conditional on a line with the keyword, a name, and a trailing colon, with
the filename fallback for every other text.  The text `typestate Foo`
contains no colon at all — so no line with a trailing colon — yet the
resolver returns `Foo`, not the fallback `widget` of stem
`widget_typestate`: the code never requires the colon. -/
theorem C4_colon_not_required_cx :
    ((splitLines (str "typestate Foo")).all (fun l => !(claimColonDeclLine l))) = true
    ∧ ((splitLines (str "typestate Foo")).all (fun l => !(l.contains ':'))) = true
    ∧ extract_typestate_name (str "widget_typestate") (str "typestate Foo") = str "Foo"
    ∧ stemFallback (str "widget_typestate") = str "widget"
    ∧ (str "Foo" ≠ str "widget") := by decide

/-- C4, amended: the resolver returns a declaration-derived name exactly
for texts containing a line that, after trimming, begins with the keyword
`typestate ` — a trailing colon is not required; the first such line wins,
and the result is that line with every occurrence of the keyword removed,
trailing colons stripped, truncated before any opening bracket, and
trimmed; for every text with no such line it returns the filename stem
with the `_typestate` marker occurrences removed.  Being a total function,
it never fails. -/
theorem C4_first_match_or_fallback (stem content : Str) :
    (∃ i : Nat, ∃ hi : i < (splitLines content).length,
        isDeclLine ((splitLines content).get ⟨i, hi⟩) = true
        ∧ (∀ (j : Nat) (hj : j < (splitLines content).length), j < i →
            isDeclLine ((splitLines content).get ⟨j, hj⟩) = false)
        ∧ extract_typestate_name stem content
            = declLineName ((splitLines content).get ⟨i, hi⟩))
    ∨ ((∀ l ∈ splitLines content, isDeclLine l = false)
        ∧ extract_typestate_name stem content = stemFallback stem) := by
  cases h : (splitLines content).find? isDeclLine with
  | none =>
    right
    constructor
    · intro l hl
      have := List.find?_eq_none.mp h l hl
      simpa using this
    · simp [extract_typestate_name, h]
  | some l =>
    left
    obtain ⟨i, hi, hget, hpl, hfirst⟩ := find?_first isDeclLine (splitLines content) l h
    refine ⟨i, hi, by rw [hget]; exact hpl, hfirst, ?_⟩
    rw [hget]
    simp [extract_typestate_name, h]

/-! ## Claim C5 -/

/-- C5: the spec's three concrete name-extraction cases — a
`typestate Payment:` line yields `Payment`, a generic
`typestate Container[T]:` line yields `Container`, and a text with no
declaration line falls back from the stem `widget_typestate` to
`widget`. -/
theorem C5_spec_name_extraction_cases :
    extract_typestate_name (str "payment_typestate")
      (str "# intro\ntypestate Payment:\n  states: S") = str "Payment"
    ∧ extract_typestate_name (str "container_typestate")
      (str "typestate Container[T]:\n  states: S") = str "Container"
    ∧ extract_typestate_name (str "widget_typestate")
      (str "# no declaration here\nstate Idle") = str "widget" := by decide

/-! ## Claim C6 -/

/-- C6: the staleness oracle demands regeneration whenever some snippet's
corresponding (stem-derived) image is absent; and it reports up to date
whenever every snippet's image exists no older than the snippet and the
CLI binary is no newer than any existing image. -/
theorem C6_staleness_oracle_verdicts (snips : List Snippet) (svgs : List (Str × Nat))
    (cli : Option Nat) :
    ((∃ s ∈ snips, lookupMtime svgs (stemKey s ++ str ".svg") = none) →
      needs_regeneration snips svgs cli = true)
    ∧ (∀ cm : Nat, cli = some cm →
        (∀ s ∈ snips, ∃ m, lookupMtime svgs (stemKey s ++ str ".svg") = some m ∧ s.mtime ≤ m) →
        (∀ p ∈ svgs, cm ≤ p.2) →
        needs_regeneration snips svgs cli = false) := by
  constructor
  · rintro ⟨s, hs, hnone⟩
    unfold needs_regeneration
    apply Bool.or_eq_true_iff.mpr
    left
    rw [List.any_eq_true]
    exact ⟨s, hs, by simp [hnone]⟩
  · intro cm hcli hfresh hcliold
    subst hcli
    unfold needs_regeneration
    apply Bool.or_eq_false_iff.mpr
    constructor
    · rw [List.any_eq_false]
      intro s hs
      obtain ⟨m, hm, hle⟩ := hfresh s hs
      simp [hm, Nat.not_lt, hle]
    · rw [List.any_eq_false]
      intro p hp
      simp [Nat.not_lt, hcliold p hp]

/-- C6, witness: with one snippet and no images the oracle demands
regeneration; with a fresh `a.svg` (mtime 5 ≥ 4) and an older CLI
(mtime 3) it reports up to date. -/
theorem C6_staleness_oracle_verdicts_witness :
    needs_regeneration [⟨str "a_typestate", str "x", 4⟩] [] none = true
    ∧ needs_regeneration [⟨str "a_typestate", str "x", 4⟩]
        [(str "a.svg", 5)] (some 3) = false :=
  ⟨(C6_staleness_oracle_verdicts [⟨str "a_typestate", str "x", 4⟩] [] none).1
      ⟨⟨str "a_typestate", str "x", 4⟩, by simp, rfl⟩,
   (C6_staleness_oracle_verdicts [⟨str "a_typestate", str "x", 4⟩]
        [(str "a.svg", 5)] (some 3)).2 3 rfl
     (by
       intro s hs
       simp at hs
       subst hs
       exact ⟨5, by decide, by decide⟩)
     (by
       intro p hp
       simp at hp
       subst hp
       decide)⟩

/-! ## Claim C7 -/

/-- C7: in the three-snippet scenario where the layout tool fails on
exactly the `k`-th snippet's `.dot` file, the batch run exits 1, reports
the summary 2 out of 3, leaves the other two snippets' `.svg` artifacts on
disk and no `.svg` for the failed one, and still emits the processing
message of every snippet — one failure aborts nothing. -/
theorem C7_partial_failure_scenario : ∀ k : Fin 3,
    (main (failEnv k) st7).1 = 1
    ∧ Msg.summary 2 3 ∈ (main (failEnv k) st7).2.2
    ∧ (∀ j : Fin 3, j ≠ k → svgOf j ∈ (main (failEnv k) st7).2.1.outputFiles)
    ∧ svgOf k ∉ (main (failEnv k) st7).2.1.outputFiles
    ∧ (∀ j : Fin 3, Msg.processing (stemOf j) (nameOf j) ∈ (main (failEnv k) st7).2.2) := by
  decide

/-! ## Claim C8 -/

/-- C8: with the skip environment switch set to any non-empty value the
hook returns immediately: it launches no subprocess, logs only the debug
line, and leaves the output directory exactly as it was. -/
theorem C8_skip_switch_no_effects (env : HookEnv) (fs : HookFS) (s : Str)
    (h1 : env.skipVar = some s) (h2 : s ≠ []) :
    on_pre_build env fs =
      Except.ok ⟨[], [HookLog.debug (str "skip set")], fs.svgs⟩ := by
  have ht : envTruthy env.skipVar = true := by
    rw [h1]
    unfold envTruthy
    simp [h2]
  simp [on_pre_build, ht]

/-- C8, witness: the skip switch set to `1` on a populated filesystem. -/
theorem C8_skip_switch_no_effects_witness :
    on_pre_build envSkip fsOne =
      Except.ok ⟨[], [HookLog.debug (str "skip set")], fsOne.svgs⟩ :=
  C8_skip_switch_no_effects envSkip fsOne (str "1") rfl (by decide)

/-! ## Claim C9 -/

/-- C9: when the snippets directory exists but the CLI binary does not,
the direct entry point exits 1 having already created the output
directory, and touches nothing else. -/
theorem C9_output_dir_created_despite_missing_cli (env : ScriptEnv) (st : SysState)
    (h1 : st.snippetsDirExists = true) (h2 : st.cliExists = false) :
    main env st = (1, { st with outputDirExists := true }, [Msg.errNoCli]) := by
  simp [main, h1, h2]

/-- C9, witness: the missing-CLI run on a concrete state. -/
theorem C9_output_dir_created_despite_missing_cli_witness :
    main envOk stNoCli = (1, { stNoCli with outputDirExists := true }, [Msg.errNoCli]) :=
  C9_output_dir_created_despite_missing_cli envOk stNoCli rfl rfl

/-! ## Claim C10 -/

/-- C10: the hook always returns normally — no exception ever escapes
`on_pre_build` — and whenever it did launch the generation subprocess and
that subprocess exited non-zero, the failure appears in the log at error
level rather than being propagated. -/
theorem C10_hook_never_raises (env : HookEnv) (fs : HookFS) :
    (∃ r : HookRun, on_pre_build env fs = Except.ok r)
    ∧ (∀ r : HookRun, on_pre_build env fs = Except.ok r →
        HookEffect.runGenScript ∈ r.effects → env.genCode ≠ 0 →
        HookLog.logError (str "diagram generation failed") ∈ r.logs) := by
  constructor
  · unfold on_pre_build
    repeat' split
    all_goals exact ⟨_, rfl⟩
  · intro r hr hmem hcode
    unfold on_pre_build at hr
    repeat' split at hr
    all_goals cases hr
    all_goals first
      | (simp; done)
      | (exact absurd hcode (by assumption))
      | (simp at hmem)

/-- C10, witness: a forced run whose generation subprocess exits 1 — the
hook returns normally and the error line is in the log. -/
theorem C10_hook_never_raises_witness :
    HookLog.logError (str "diagram generation failed") ∈
      [HookLog.info (str "generating diagrams"),
       HookLog.logError (str "diagram generation failed")] :=
  (C10_hook_never_raises envGenFail fsOne).2
    ⟨[HookEffect.runDotV, HookEffect.runGenScript],
     [HookLog.info (str "generating diagrams"),
      HookLog.logError (str "diagram generation failed")],
     envGenFail.genSvgs⟩
    rfl (by decide) (by decide)

end Typestates
